import Mathlib

/-!
Verification development for the MACE EU daily-verse backend (`src/main.py`).

The backend is a Flask app that renders a structured daily-verse record into a
fixed HTML template, stores it as one file per date in a GitHub repository
(`daily-verses/bible_verse_YYYY-MM-DD.html` on branch `main`), and later lists,
fetches and re-parses those files.  This file gives a shallow embedding of its
date handling, filename pattern, template rendering, content parsing and of the
four HTTP endpoints, together with theorems checking the specification claims.

Library calls that are external to `src/` (CPython `datetime.strptime` /
`strftime`, the `re` module, BeautifulSoup) are modelled by executable Lean
definitions that follow their documented behaviour on the inputs this program
feeds them; each such definition carries a comment saying what it models.
-/

/-- ASCII whitespace recognised by Python `str.strip()` and by `\s` in the
`_strptime` regexes (the unicode whitespace extensions are not relevant to the
inputs this program handles). -/
def isPyWs (c : Char) : Bool :=
  c = ' ' || c = '\t' || c = '\n' || c = '\r' || c = '\x0b' || c = '\x0c'

/-- A calendar date as carried by `datetime` objects in the program. -/
structure VDate where
  year : Nat
  month : Nat
  day : Nat
deriving DecidableEq, Repr

/-- Gregorian leap-year rule used by `datetime`. -/
def isLeapYear (y : Nat) : Bool :=
  y % 4 = 0 && (y % 100 ≠ 0 || y % 400 = 0)

/-- Days in a month, as validated by the `datetime` constructor. -/
def daysInMonth (y m : Nat) : Nat :=
  if m = 2 then (if isLeapYear y then 29 else 28)
  else if m = 4 || m = 6 || m = 9 || m = 11 then 30
  else 31

/-- Full month names as produced by `strftime("%B")` in the C locale. -/
def monthName : Nat → String
  | 1 => "January"
  | 2 => "February"
  | 3 => "March"
  | 4 => "April"
  | 5 => "May"
  | 6 => "June"
  | 7 => "July"
  | 8 => "August"
  | 9 => "September"
  | 10 => "October"
  | 11 => "November"
  | 12 => "December"
  | _ => ""

/-- Month table used when matching `%B` in `strptime`. -/
def monthTable : List (Nat × String) :=
  [(1, "January"), (2, "February"), (3, "March"), (4, "April"), (5, "May"),
   (6, "June"), (7, "July"), (8, "August"), (9, "September"), (10, "October"),
   (11, "November"), (12, "December")]

/-- Case-insensitive character comparison (month matching in `_strptime` is
case-insensitive). -/
def lowerEq (a b : Char) : Bool := a.toLower = b.toLower

/-- Drop a case-insensitive occurrence of `p` from the front of `cs`. -/
def stripFrontCI : List Char → List Char → Option (List Char)
  | [], rest => some rest
  | _ :: _, [] => none
  | p :: ps, c :: cs => if lowerEq p c then stripFrontCI ps cs else none

/-- Try the month names in order, returning month number and remaining input. -/
def readMonthAux : List (Nat × String) → List Char → Option (Nat × List Char)
  | [], _ => none
  | (i, nm) :: rest, cs =>
    match stripFrontCI nm.data cs with
    | some cs' => some (i, cs')
    | none => readMonthAux rest cs

/-- Numeric value of a decimal digit character. -/
def digitVal (c : Char) : Nat := c.toNat - 48

/-- Value of a list of decimal digit characters. -/
def digitsVal (l : List Char) : Nat := l.foldl (fun a c => 10 * a + digitVal c) 0

/-- Modelled from the spec: CPython `datetime.strptime(s, "%B %d, %Y")`
(library code, not in `src/`).  `%B` matches a full month name
case-insensitively; literal whitespace in the format matches one or more
whitespace characters; `%d` matches one digit `1-9` or two digits `01-31`;
`, ` matches a comma then one or more whitespace characters; `%Y` matches
exactly four digits and the whole input must be consumed; finally the
`datetime` constructor requires `1 <= year` and a day that exists in the
parsed month. -/
def parseDisplayDate (s : String) : Option VDate :=
  match readMonthAux monthTable s.data with
  | none => none
  | some (m, r1) =>
    let r2 := r1.dropWhile isPyWs
    if r2.length = r1.length then none
    else
      let ds := r2.takeWhile Char.isDigit
      let r3 := r2.dropWhile Char.isDigit
      let d := digitsVal ds
      if (ds.length = 1 ∧ 1 ≤ d) ∨ (ds.length = 2 ∧ 1 ≤ d ∧ d ≤ 31) then
        match r3 with
        | ',' :: r4 =>
          let r5 := r4.dropWhile isPyWs
          if r5.length = r4.length then none
          else
            let ys := r5.takeWhile Char.isDigit
            let r6 := r5.dropWhile Char.isDigit
            if ys.length = 4 ∧ r6 = [] then
              let y := digitsVal ys
              if 1 ≤ y ∧ d ≤ daysInMonth y m then some ⟨y, m, d⟩ else none
            else none
        | _ => none
      else none

/-- Modelled from the spec: CPython `datetime.strptime(s, "%Y-%m-%d")`
(library code, not in `src/`) on the ten-character strings produced by a
`FILE_DATE_PATTERN` match group (always four digits, dash, two digits, dash,
two digits).  A two-digit month is accepted iff it is `01`-`12`, a two-digit
day iff it names a day of the parsed month, and years start at `MINYEAR = 1`. -/
def parseIsoDate (s : String) : Option VDate :=
  match s.data with
  | [y1, y2, y3, y4, '-', m1, m2, '-', d1, d2] =>
    if y1.isDigit ∧ y2.isDigit ∧ y3.isDigit ∧ y4.isDigit ∧ m1.isDigit ∧ m2.isDigit
        ∧ d1.isDigit ∧ d2.isDigit then
      let y := digitsVal [y1, y2, y3, y4]
      let m := digitsVal [m1, m2]
      let d := digitsVal [d1, d2]
      if 1 ≤ y ∧ 1 ≤ m ∧ m ≤ 12 ∧ 1 ≤ d ∧ d ≤ daysInMonth y m then some ⟨y, m, d⟩
      else none
    else none
  | _ => none

/-- Two-digit zero-padded field, as printed by `strftime` `%d` / `%m`. -/
def pad2 (n : Nat) : String := ⟨[Nat.digitChar (n / 10 % 10), Nat.digitChar (n % 10)]⟩

/-- Four-digit field, as printed by `strftime` `%Y` for the four-digit years
this program round-trips (platform `strftime` may print years below 1000
without padding; such years never arise from the accepted inputs). -/
def pad4 (n : Nat) : String :=
  ⟨[Nat.digitChar (n / 1000 % 10), Nat.digitChar (n / 100 % 10),
    Nat.digitChar (n / 10 % 10), Nat.digitChar (n % 10)]⟩

/-- Modelled from the spec: `date_obj.strftime("%B %d, %Y")`. -/
def formatDisplayDate (d : VDate) : String :=
  monthName d.month ++ " " ++ pad2 d.day ++ ", " ++ pad4 d.year

/-- Modelled from the spec: `date_obj.strftime("%Y-%m-%d")`. -/
def formatIsoDate (d : VDate) : String :=
  pad4 d.year ++ "-" ++ pad2 d.month ++ "-" ++ pad2 d.day

/-- `FILE_DATE_PATTERN = re.compile(r"bible_verse_(\d{4}-\d{2}-\d{2})\.html")`,
used via `re.match`: anchored at the start of the file name, not at its end;
returns the captured ISO-date group on success. -/
def matchFilePattern (name : String) : Option String :=
  match name.data with
  | 'b' :: 'i' :: 'b' :: 'l' :: 'e' :: '_' :: 'v' :: 'e' :: 'r' :: 's' :: 'e' :: '_' ::
    c1 :: c2 :: c3 :: c4 :: '-' :: c5 :: c6 :: '-' :: c7 :: c8 :: '.' :: 'h' :: 't' :: 'm' :: 'l' :: _ =>
    if c1.isDigit ∧ c2.isDigit ∧ c3.isDigit ∧ c4.isDigit ∧ c5.isDigit ∧ c6.isDigit
        ∧ c7.isDigit ∧ c8.isDigit then
      some ⟨[c1, c2, c3, c4, '-', c5, c6, '-', c7, c8]⟩
    else none
  | _ => none

/-- One entry of a `repo.get_contents(dir)` directory listing: its `name` and
its `type` (`"file"` for files). -/
structure RepoEntry where
  name : String
  typ : String
deriving DecidableEq, Repr

/-- Python `name.endswith(".html")`, on the character lists (the builtin
`String.endsWith` is replaced by an equivalent that evaluates in proofs). -/
def strEndsWith (s suffix : String) : Bool := suffix.data.isSuffixOf s.data

/-- The date an entry contributes, shared filter of both listing endpoints:
the entry must be a file whose name ends in `.html`, match
`FILE_DATE_PATTERN`, and carry a parsable ISO date (otherwise the loops skip
it, the last case with only a printed warning). -/
def entryDate (e : RepoEntry) : Option VDate :=
  if e.typ = "file" ∧ strEndsWith e.name (".html") = true then
    match matchFilePattern e.name with
    | some iso => parseIsoDate iso
    | none => none
  else none

/-- Dates contributed by a listing, in listing order. -/
def parsedDatesFrom (entries : List RepoEntry) : List VDate :=
  entries.filterMap entryDate

/-- Body of the `get_existing_verse_dates` loop: the formatted dates of the
matching files, in listing order. -/
def existingDatesFrom (entries : List RepoEntry) : List String :=
  entries.filterMap (fun e => (entryDate e).map formatDisplayDate)

/-- `datetime` comparison used by `current_date_obj > latest_date_obj`. -/
def dateLt (a b : VDate) : Bool :=
  a.year < b.year || (a.year = b.year &&
    (a.month < b.month || (a.month = b.month && a.day < b.day)))

/-- One step of the `get_latest_verse_date` maximum loop:
`if latest_date_obj is None or current_date_obj > latest_date_obj`. -/
def maxStep (acc : Option VDate) (d : VDate) : Option VDate :=
  match acc with
  | none => some d
  | some m => if dateLt m d then some d else some m

/-- Body of the `get_latest_verse_date` loop over the directory listing. -/
def latestDateFrom (entries : List RepoEntry) : Option VDate :=
  entries.foldl (fun acc e =>
    match entryDate e with
    | some dte => maxStep acc dte
    | none => acc) none
/-- CSS text inside the style element of HTML_TEMPLATE (literal braces shown as escapes). -/
def cssText : String :=
  "\n        /* Base Styling & Variables */\n        :root \x7b\n            font-size: 16px; /* Base for rem units */\n            --primary-green: #4CAF50;\n            --dark-green: #28a745;\n            --light-gray-bg: #f0f4f8;\n            --card-bg: #ffffff;\n            --text-dark: #333;\n            --text-medium: #555;\n            --text-light: #777;\n            --shadow-subtle: rgba(0, 0, 0, 0.1);\n            --shadow-strong: rgba(0, 0, 0, 0.15);\n        \x7d\n\n        body \x7b\n            margin: 0;\n            padding: 0;\n            font-family: \x27Open Sans\x27, sans-serif;\n            background-color: var(--light-gray-bg);\n            display: flex;\n            justify-content: center;\n            align-items: center;\n            min-height: 100vh;\n            box-sizing: border-box;\n            line-height: 1.6;\n            color: var(--text-dark);\n            overflow-x: hidden; /* Prevent horizontal scroll */\n        \x7d\n\n        /* Main Container Card */\n        .verse-card-container \x7b\n            background: var(--card-bg);\n            border-radius: 20px; /* Rounded corners for the card */\n            box-shadow: 0 10px 30px var(--shadow-subtle); /* Soft shadow */\n            max-width: 650px;\n            width: 90%; /* Responsive width */\n            padding: 2.5rem; /* 40px */\n            text-align: center;\n            position: relative;\n            overflow: hidden;\n            animation: fadeInScale 1s ease-out forwards; /* Initial animation */\n            margin: 20px 0; /* Margin for spacing on small screens */\n            border: 1px solid #eee; /* Subtle border */\n        \x7d\n\n        /* Header Section for the Page */\n        .verse-card-header \x7b\n            margin-bottom: 2rem; /* 32px */\n            position: relative;\n            z-index: 1; /* Ensure header is above any background graphics */\n        \x7d\n\n        .verse-card-header h1 \x7b\n            font-family: \x27Playfair Display\x27, serif;\n            font-size: 2.8rem; /* Large heading for prominence */\n            color: var(--primary-green);\n            margin-bottom: 0.5rem; /* 8px */\n            text-shadow: 1px 1px 3px rgba(0, 0, 0, 0.05);\n            line-height: 1.2;\n        \x7d\n\n        .verse-card-header p.date \x7b\n            font-size: 1.1rem; /* Date text */\n            color: var(--text-medium);\n            margin-top: 0;\n            opacity: 0.8;\n        \x7d\n\n        /* Bible Verse Section */\n        .bible-verse-block \x7b\n            background-color: #f7fcf7; /* Lighter background for verse */\n            border-left: 6px solid var(--dark-green); /* Accent bar */\n            border-radius: 12px;\n            padding: 1.875rem; /* 30px */\n            margin: 2rem auto; /* 32px */\n            max-width: 90%; /* Constraint within card */\n            box-shadow: inset 0 2px 8px rgba(0, 0, 0, 0.05); /* Inner shadow */\n            text-align: left;\n            position: relative;\n            z-index: 1;\n        \x7d\n\n        .bible-verse-block blockquote \x7b\n            font-family: \x27Playfair Display\x27, serif; /* Elegant font for the verse */\n            font-size: 1.4rem; /* Prominent verse text */\n            font-style: italic;\n            color: var(--text-dark);\n            margin: 0;\n            padding: 0;\n            quotes: \"“\" \"”\" \"‘\" \"’\"; /* Custom quotes */\n            position: relative;\n            padding-left: 1.5rem; /* Space for large quote mark */\n        \x7d\n        .bible-verse-block blockquote::before \x7b\n            content: \"“\";\n            font-size: 4em; /* Large opening quote */\n            color: rgba(40, 167, 69, 0.2); /* Semi-transparent green */\n            position: absolute;\n            left: 0;\n            top: -0.5em; /* Adjust position */\n            line-height: 1;\n            font-family: serif; /* Ensure it\x27s a clear quote mark */\n        \x7d\n\n        .bible-verse-block cite \x7b\n            display: block;\n            margin-top: 1rem; /* 16px */\n            font-size: 0.95rem;\n            color: var(--text-light);\n            text-align: right;\n            font-style: normal; /* Override italic from blockquote */\n        \x7d\n\n        /* Message/Reflection Section */\n        .message-section \x7b\n            margin-top: 2rem; /* 32px */\n            padding: 0 1rem; /* Some internal padding */\n            text-align: left;\n            position: relative;\n            z-index: 1;\n        \x7d\n\n        .message-section h3 \x7b\n            font-family: \x27Playfair Display\x27, serif;\n            font-size: 1.6rem; /* Sub-heading for message */\n            color: var(--dark-green);\n            margin-bottom: 1rem; /* 16px */\n            position: relative;\n            padding-bottom: 0.5rem;\n        \x7d\n\n        .message-section h3::after \x7b /* Small underline for message heading */\n            content: \x27\x27;\n            display: block;\n            width: 4rem; /* 64px */\n            height: 3px;\n            background-color: var(--primary-green);\n            margin-top: 0.5rem;\n            border-radius: 2px;\n        \x7d\n\n        .message-section p \x7b\n            font-size: 1rem;\n            color: var(--text-medium);\n            line-height: 1.7;\n            margin-bottom: 1rem;\n        \x7d\n\n        /* Sender Info Footer */\n        .sender-info \x7b\n            margin-top: 3rem; /* 48px */\n            font-size: 0.9rem;\n            color: var(--text-light);\n            line-height: 1.5;\n            text-align: center;\n            position: relative;\n            z-index: 1;\n            padding-top: 1rem;\n            border-top: 1px dashed #e0e0e0; /* Subtle separator */\n        \x7d\n\n        .sender-info strong \x7b\n            color: var(--text-dark);\n        \x7d\n\n        /* Animations */\n        @keyframes fadeInScale \x7b\n            from \x7b opacity: 0; transform: scale(0.95); \x7d\n            to \x7b opacity: 1; transform: scale(1); \x7d\n        \x7d\n\n        /* Responsive Adjustments (using rem for scaling) */\n        @media (max-width: 650px) \x7b\n            :root \x7b\n                font-size: 15px; /* Slightly reduce base font size */\n            \x7d\n            .verse-card-container \x7b\n                padding: 1.5rem; /* 24px */\n                border-radius: 0; /* Remove border-radius on small screens */\n                width: 100%;\n                box-shadow: none; /* Remove shadow for full-width look */\n                margin: 0; /* No margin needed */\n            \x7d\n            body \x7b\n                align-items: flex-start; /* Align to top on small screens */\n                min-height: auto; /* Remove min-height to prevent empty space */\n            \x7d\n            .verse-card-header h1 \x7b\n                font-size: 2rem; /* Smaller heading */\n            \x7d\n            .verse-card-header p.date \x7b\n                font-size: 0.9rem;\n            \x7d\n            .bible-verse-block \x7b\n                padding: 1.25rem; /* 20px */\n                margin: 1.5rem auto; /* 24px */\n            \x7d\n            .bible-verse-block blockquote \x7b\n                font-size: 1.2rem;\n            \x7d\n            .bible-verse-block blockquote::before \x7b\n                font-size: 3em;\n                top: -0.2em;\n            \x7d\n            .message-section h3 \x7b\n                font-size: 1.3rem;\n            \x7d\n            .message-section p \x7b\n                font-size: 0.95rem;\n            \x7d\n            .sender-info \x7b\n                margin-top: 2rem; /* 32px */\n            \x7d\n        \x7d\n\n        @media (max-width: 450px) \x7b\n            :root \x7b\n                font-size: 14px; /* Further reduce base font size */\n            \x7d\n            .verse-card-container \x7b\n                padding: 1rem; /* 16px */\n            \x7d\n            .verse-card-header h1 \x7b\n                font-size: 1.8rem;\n            \x7d\n            .verse-card-header p.date \x7b\n                font-size: 0.85rem;\n            \x7d\n            .bible-verse-block \x7b\n                padding: 1rem; /* 16px */\n                margin: 1rem auto; /* 16px */\n            \x7d\n            .bible-verse-block blockquote \x7b\n                font-size: 1.1rem;\n            \x7d\n            .bible-verse-block blockquote::before \x7b\n                font-size: 2.5em;\n                top: -0.1em;\n            \x7d\n            .message-section h3 \x7b\n                font-size: 1.1rem;\n            \x7d\n            .message-section p \x7b\n                font-size: 0.875rem;\n            \x7d\n        \x7d\n    "

/-- Literal piece 0 of HTML_TEMPLATE (text between format slots, with \x7b\x7b escapes already applied). -/
def tpl0 : String :=
  "<!DOCTYPE html>\n<html lang=\"en\">\n<head>\n    <meta charset=\"UTF-8\">\n    <meta name=\"viewport\" content=\"width=device-width, initial-scale=1.0\">\n    <title>Daily Bible Verse from MACE EU - "

/-- Literal piece 1 of HTML_TEMPLATE (text between format slots, with \x7b\x7b escapes already applied). -/
def tpl1 : String :=
  "</title>\n    <link href=\"https://fonts.googleapis.com/css2?family=Open+Sans:wght@300;400;600;700&family=Playfair+Display:wght@700&display=swap\" rel=\"stylesheet\">\n    <style>" ++ cssText ++ "</style>\n</head>\n<body>\n    <div class=\"verse-card-container\">\n        <div class=\"verse-card-header\">\n            <h1>Your Daily Bible Verse!</h1>\n            <p class=\"date\">"

/-- Literal piece 2 of HTML_TEMPLATE (text between format slots, with \x7b\x7b escapes already applied). -/
def tpl2 : String :=
  "</p>\n        </div>\n\n        <div class=\"bible-verse-block\">\n            <blockquote>\n                "

/-- Literal piece 3 of HTML_TEMPLATE (text between format slots, with \x7b\x7b escapes already applied). -/
def tpl3 : String :=
  "\n            </blockquote>\n            <cite>—"

/-- Literal piece 4 of HTML_TEMPLATE (text between format slots, with \x7b\x7b escapes already applied). -/
def tpl4 : String :=
  "</cite>\n            <blockquote>\n                \""

/-- Literal piece 5 of HTML_TEMPLATE (text between format slots, with \x7b\x7b escapes already applied). -/
def tpl5 : String :=
  "\"\n            </blockquote>\n            <cite>— "

/-- Literal piece 6 of HTML_TEMPLATE (text between format slots, with \x7b\x7b escapes already applied). -/
def tpl6 : String :=
  "</cite>\n        </div>\n\n        <div class=\"message-section\">\n            <h3>"

/-- Literal piece 7 of HTML_TEMPLATE (text between format slots, with \x7b\x7b escapes already applied). -/
def tpl7 : String :=
  ":</h3>\n            <p>\n                "

/-- Literal piece 8 of HTML_TEMPLATE (text between format slots, with \x7b\x7b escapes already applied). -/
def tpl8 : String :=
  "\n            </p>\n            <p>\n                "

/-- Literal piece 9 of HTML_TEMPLATE (text between format slots, with \x7b\x7b escapes already applied). -/
def tpl9 : String :=
  "\n            </p>\n        </div>\n\n        <div class=\"sender-info\">\n            Blessings,<br>\n            The Team at <strong>MACE Evangelical Union</strong><br>\n            <a href=\"https://jokku-gamma.github.io/MACE-EU/\" style=\"color: #4CAF50; text-decoration: none;\">Visit our Website</a>\n        </div>\n    </div>\n</body>\n</html>\n"

/-- A piece of a Python format template: literal text or a named slot. -/
inductive TmplPiece where
  | lit (s : String)
  | slot (n : String)

/-- Modelled from the spec: Python `str.format` with keyword arguments on a
pre-split template — each literal piece is copied (with `\x7b\x7b` and
`\x7d\x7d` already rendered as single braces) and each slot is replaced by the
keyword value verbatim, without rescanning or escaping. -/
def pyFormat (subst : String → String) : List TmplPiece → String
  | [] => ""
  | .lit s :: rest => s ++ pyFormat subst rest
  | .slot n :: rest => subst n ++ pyFormat subst rest

/-- `HTML_TEMPLATE` from `src/main.py`, split at its nine format slots
(`display_date` appears twice). -/
def HTML_TEMPLATE_PIECES : List TmplPiece :=
  [.lit tpl0, .slot ("display_date"), .lit tpl1, .slot ("display_date"),
   .lit tpl2, .slot ("malayalam_verse"), .lit tpl3, .slot ("malayalam_ref"),
   .lit tpl4, .slot ("english_verse"), .lit tpl5, .slot ("english_ref"),
   .lit tpl6, .slot ("message_title"), .lit tpl7, .slot ("message_paragraph1"),
   .lit tpl8, .slot ("message_paragraph2"), .lit tpl9]

/-- `HTML_TEMPLATE.format(display_date=..., malayalam_verse=..., ...)` as done
by `generate_and_upload_verse`. -/
def renderVerse (display_date malayalam_verse malayalam_ref english_verse
    english_ref message_title message_paragraph1 message_paragraph2 : String) : String :=
  pyFormat (fun n =>
    if n = "display_date" then display_date
    else if n = "malayalam_verse" then malayalam_verse
    else if n = "malayalam_ref" then malayalam_ref
    else if n = "english_verse" then english_verse
    else if n = "english_ref" then english_ref
    else if n = "message_title" then message_title
    else if n = "message_paragraph1" then message_paragraph1
    else if n = "message_paragraph2" then message_paragraph2
    else ("")) HTML_TEMPLATE_PIECES
/-- The structured record assembled by `get_verse_content_by_date`. -/
structure VerseRecord where
  date : String
  malayalam_verse : String
  malayalam_ref : String
  english_verse : String
  english_ref : String
  message_title : String
  message_paragraph1 : String
  message_paragraph2 : String
deriving DecidableEq, Repr

/-- An HTML element tree as exposed by BeautifulSoup: elements carry their tag,
their `class` attribute values and their children; text nodes carry a string.
Attributes other than `class` play no role in the parser and are dropped. -/
inductive HNode where
  | text (s : String)
  | elem (tag : String) (classes : List String) (children : List HNode)

/-- Children of a node (text nodes have none). -/
def childrenOf : HNode → List HNode
  | .text _ => []
  | .elem _ _ ch => ch

mutual
/-- `soup.find(tag, class_=cls)`: first element in document order whose tag is
`tag` and whose class list contains `cls` (the searched node included). -/
def findTagClass (tag cls : String) : HNode → Option HNode
  | .text _ => none
  | .elem t cs ch =>
    if t = tag ∧ cls ∈ cs then some (.elem t cs ch)
    else findTagClassL tag cls ch

/-- `findTagClass` over a list of sibling subtrees, in document order. -/
def findTagClassL (tag cls : String) : List HNode → Option HNode
  | [] => none
  | n :: rest =>
    match findTagClass tag cls n with
    | some r => some r
    | none => findTagClassL tag cls rest
end

mutual
/-- All elements with tag `tag` in a subtree, in document order (the subtree
root included). -/
def findAllTag (tag : String) : HNode → List HNode
  | .text _ => []
  | .elem t cs ch => (if t = tag then [HNode.elem t cs ch] else []) ++ findAllTagL tag ch

/-- `element.find_all(tag)`: all elements with tag `tag` among the descendants
of the listed subtrees, in document order. -/
def findAllTagL (tag : String) : List HNode → List HNode
  | [] => []
  | n :: rest => findAllTag tag n ++ findAllTagL tag rest
end

mutual
/-- The text strings of a subtree, in document order. -/
def allStrings : HNode → List String
  | .text s => [s]
  | .elem _ _ ch => allStringsL ch

/-- `allStrings` over sibling subtrees. -/
def allStringsL : List HNode → List String
  | [] => []
  | n :: rest => allStrings n ++ allStringsL rest
end

/-- `l.dropWhile p` from the left. -/
def lstripP (p : Char → Bool) (l : List Char) : List Char := l.dropWhile p

/-- Drop trailing characters satisfying `p`. -/
def rstripP (p : Char → Bool) (l : List Char) : List Char := (l.reverse.dropWhile p).reverse

/-- Python `str.strip`-style stripping with predicate `p` at both ends. -/
def stripP (p : Char → Bool) (l : List Char) : List Char := rstripP p (lstripP p l)

/-- Python `s.strip()` (ASCII whitespace). -/
def pyStrip (s : String) : String := ⟨stripP isPyWs s.data⟩

/-- Python `s.strip('"')`: remove all leading and trailing double quotes. -/
def stripQuotes (s : String) : String := ⟨stripP (fun c => c == '"') s.data⟩

/-- Python `s.replace(c, '')` for a one-character pattern: remove every
occurrence of `c`. -/
def removeChar (c : Char) (s : String) : String := ⟨s.data.filter (fun a => a != c)⟩

/-- `element.get_text(strip=True)`: each contained string stripped, strings
that strip to nothing skipped, the rest joined without separator. -/
def getTextStrip (n : HNode) : String :=
  String.join (((allStrings n).map pyStrip).filter (fun s => s != ""))

/-- The field-extraction steps of `get_verse_content_by_date` (lines 453-483):
positional BeautifulSoup lookups on the fetched document plus the literal
post-processing of each field; `none` models the `AttributeError` /
`IndexError` raised when a lookup finds nothing (caught by the generic
handler).  The `date` field is the query string, not read from the HTML. -/
def parseVerseFromDom (dateStr : String) (doc : HNode) : Option VerseRecord := do
  let bvb ← findTagClass ("div") ("bible-verse-block") doc
  let bqs := findAllTagL ("blockquote") (childrenOf bvb)
  let cites := findAllTagL ("cite") (childrenOf bvb)
  let mvE ← bqs[0]?
  let mrE ← cites[0]?
  let evE ← bqs[1]?
  let erE ← cites[1]?
  let ms ← findTagClass ("div") ("message-section") doc
  let mtE ← (findAllTagL ("h3") (childrenOf ms))[0]?
  let ps := findAllTagL ("p") (childrenOf ms)
  some {
    date := dateStr
    malayalam_verse := getTextStrip mvE
    malayalam_ref := removeChar '—' (getTextStrip mrE)
    english_verse := stripQuotes (getTextStrip evE)
    english_ref := removeChar '—' (getTextStrip erE)
    message_title := removeChar ':' (getTextStrip mtE)
    message_paragraph1 := match ps[0]? with | some e => getTextStrip e | none => ""
    message_paragraph2 := match ps[1]? with | some e => getTextStrip e | none => ""
  }

/-- Modelled from the spec: the element tree that BeautifulSoup `html.parser`
(library code, not in `src/`) produces for `renderVerse` output whenever the
substituted field values contain no markup metacharacters (`<`, `&`); text
nodes carry exactly the template text around each slot. -/
def renderedDom (display_date malayalam_verse malayalam_ref english_verse
    english_ref message_title message_paragraph1 message_paragraph2 : String) : HNode :=
  .elem ("html") [] [
    .text ("\n"),
    .elem ("head") [] [
      .text ("\n    "),
      .elem ("meta") [] [],
      .text ("\n    "),
      .elem ("meta") [] [],
      .text ("\n    "),
      .elem ("title") [] [.text ("Daily Bible Verse from MACE EU - " ++ display_date)],
      .text ("\n    "),
      .elem ("link") [] [],
      .text ("\n    "),
      .elem ("style") [] [.text cssText],
      .text ("\n")],
    .text ("\n"),
    .elem ("body") [] [
      .text ("\n    "),
      .elem ("div") [("verse-card-container")] [
        .text ("\n        "),
        .elem ("div") [("verse-card-header")] [
          .text ("\n            "),
          .elem ("h1") [] [.text ("Your Daily Bible Verse!")],
          .text ("\n            "),
          .elem ("p") [("date")] [.text display_date],
          .text ("\n        ")],
        .text ("\n\n        "),
        .elem ("div") [("bible-verse-block")] [
          .text ("\n            "),
          .elem ("blockquote") [] [.text ("\n                " ++ malayalam_verse ++ "\n            ")],
          .text ("\n            "),
          .elem ("cite") [] [.text ("—" ++ malayalam_ref)],
          .text ("\n            "),
          .elem ("blockquote") [] [.text ("\n                \"" ++ english_verse ++ "\"\n            ")],
          .text ("\n            "),
          .elem ("cite") [] [.text ("— " ++ english_ref)],
          .text ("\n        ")],
        .text ("\n\n        "),
        .elem ("div") [("message-section")] [
          .text ("\n            "),
          .elem ("h3") [] [.text (message_title ++ ":")],
          .text ("\n            "),
          .elem ("p") [] [.text ("\n                " ++ message_paragraph1 ++ "\n            ")],
          .text ("\n            "),
          .elem ("p") [] [.text ("\n                " ++ message_paragraph2 ++ "\n            ")],
          .text ("\n        ")],
        .text ("\n\n        "),
        .elem ("div") [("sender-info")] [
          .text ("\n            Blessings,"),
          .elem ("br") [] [],
          .text ("\n            The Team at "),
          .elem ("strong") [] [.text ("MACE Evangelical Union")],
          .elem ("br") [] [],
          .text ("\n            "),
          .elem ("a") [] [.text ("Visit our Website")],
          .text ("\n        ")],
        .text ("\n    ")],
      .text ("\n\n\n")]]
/-- Result of one GitHub client call: success, the 404 `UnknownObjectException`
mapped to `notFound`, or any other raised exception with its message. -/
inductive GhResult (α : Type) where
  | ok (a : α)
  | notFound
  | err (msg : String)
deriving DecidableEq, Repr

/-- A remote-store call issued while handling a request. -/
inductive StoreOp where
  | getContents (path : String)
  | createFile (path content message : String)
deriving DecidableEq, Repr

/-- Whether an operation writes to the store. -/
def StoreOp.isWrite : StoreOp → Bool
  | .getContents _ => false
  | .createFile _ _ _ => true

/-- The JSON-plus-status payload of a response: only the keys an endpoint
actually emits are `some`. -/
structure JsonResponse where
  status : Nat
  success : Bool
  message : Option String := none
  dates : Option (List String) := none
  latest_date : Option (Option String) := none
  verse : Option VerseRecord := none
deriving DecidableEq, Repr

def msgNoRepo : String :=
  "Backend not connected to GitHub repository. Check environment variables."

def msgMissing : String := "Missing required fields in request data."

def msgInvalidDate (ds : String) : String :=
  "Invalid date format: " ++ ds ++ ". Expected \x27Month DD, YYYY\x27."

def msgDup (display : String) : String :=
  "A daily verse for " ++ display ++ " already exists. Please choose another date."

def msgPushFail (e : String) : String := "Failed to push to GitHub: " ++ e

def msgCreated (display : String) : String :=
  "Verse for " ++ display ++ " successfully created and pushed to GitHub."

def msgDateRequired : String := "Date parameter is required"

def msgNoVerse (ds : String) : String := "No verse found for " ++ ds

def msgNoVersesYet : String := "No verses found yet."

def msgListFail (e : String) : String :=
  "Failed to fetch existing dates from GitHub: " ++ e

def msgLatestFail (e : String) : String :=
  "Failed to fetch latest verse date: " ++ e

/-- `GITHUB_FILE_PATH_PREFIX = "daily-verses"` from `src/main.py`. -/
def githubFilePathBase : String := "daily-verses"

/-- The derived file path
`f"{GITHUB_FILE_PATH_PREFIX}/bible_verse_{file_date_format}.html"`. -/
def versePath (d : VDate) : String :=
  githubFilePathBase ++ "/bible_verse_" ++ formatIsoDate d ++ ".html"

/-- The JSON body of `POST /generate_and_upload_verse`: `data.get(key)` yields
`none` for an absent key.  Non-string JSON values are modelled by strings;
Python truthiness of a string is non-emptiness. -/
structure GenRequest where
  date : Option String
  malayalam_verse : Option String
  malayalam_ref : Option String
  english_verse : Option String
  english_ref : Option String
  message_title : Option String
  message_paragraph1 : Option String
  message_paragraph2 : Option String
deriving DecidableEq, Repr

/-- Python truthiness of an optional string: `None` and `""` are falsy. -/
def truthy : Option String → Bool
  | none => false
  | some s => s != ""

/-- `all([manual_date_str, malayalam_verse, ..., message_paragraph2])`. -/
def allFieldsTruthy (r : GenRequest) : Bool :=
  truthy r.date && truthy r.malayalam_verse && truthy r.malayalam_ref &&
  truthy r.english_verse && truthy r.english_ref && truthy r.message_title &&
  truthy r.message_paragraph1 && truthy r.message_paragraph2

/-- `POST /generate_and_upload_verse`.  `connected` is whether the module-level
`repo` client was initialized; `check path` is what `repo.get_contents(path,
ref="main")` does for the existence check; `create path content message` is
what `repo.create_file(...)` does.  Returns the response together with the
trace of store calls issued. -/
def generate_and_upload_verse (connected : Bool) (req : GenRequest)
    (check : String → GhResult Unit)
    (create : String → String → String → Except String Unit) :
    JsonResponse × List StoreOp :=
  if connected = false then
    ({ status := 500, success := false, message := some msgNoRepo }, [])
  else if !(allFieldsTruthy req) then
    ({ status := 400, success := false, message := some msgMissing }, [])
  else
    let ds := req.date.getD ("")
    match parseDisplayDate ds with
    | none => ({ status := 400, success := false, message := some (msgInvalidDate ds) }, [])
    | some dt =>
      let display := formatDisplayDate dt
      let path := versePath dt
      match check path with
      | .ok _ =>
        ({ status := 409, success := false, message := some (msgDup display) },
         [StoreOp.getContents path])
      | .err e =>
        ({ status := 500, success := false, message := some (msgPushFail e) },
         [StoreOp.getContents path])
      | .notFound =>
        let html := renderVerse display (req.malayalam_verse.getD (""))
          (req.malayalam_ref.getD ("")) (req.english_verse.getD (""))
          (req.english_ref.getD ("")) (req.message_title.getD (""))
          (req.message_paragraph1.getD ("")) (req.message_paragraph2.getD (""))
        let cmsg := "Add daily verse for " ++ display ++ " via API"
        match create path html cmsg with
        | .ok _ =>
          ({ status := 200, success := true, message := some (msgCreated display) },
           [StoreOp.getContents path, StoreOp.createFile path html cmsg])
        | .error e =>
          ({ status := 500, success := false, message := some (msgPushFail e) },
           [StoreOp.getContents path, StoreOp.createFile path html cmsg])

/-- `GET /get_existing_verse_dates`.  `dirListing` is the result of
`repo.get_contents(GITHUB_FILE_PATH_PREFIX, ref="main")`. -/
def get_existing_verse_dates (connected : Bool)
    (dirListing : GhResult (List RepoEntry)) : JsonResponse :=
  if connected = false then
    { status := 500, success := false, message := some msgNoRepo }
  else
    match dirListing with
    | .ok entries => { status := 200, success := true, dates := some (existingDatesFrom entries) }
    | .notFound => { status := 200, success := true, dates := some [] }
    | .err e => { status := 500, success := false, message := some (msgListFail e) }

/-- `GET /get_verse_content_by_date`.  `dateArg` is the `date` query parameter;
`fetch path` models `repo.get_contents(path, ref="main")` followed by decoding
and HTML-parsing the stored file (the stored content is modelled as its parsed
element tree; the exception text of a failed positional lookup is not
modelled, only the 500 outcome). -/
def get_verse_content_by_date (connected : Bool) (dateArg : Option String)
    (fetch : String → GhResult HNode) : JsonResponse :=
  if connected = false then
    { status := 500, success := false, message := some msgNoRepo }
  else if !(truthy dateArg) then
    { status := 400, success := false, message := some msgDateRequired }
  else
    let ds := dateArg.getD ("")
    match parseDisplayDate ds with
    | none => { status := 400, success := false, message := some (msgInvalidDate ds) }
    | some dt =>
      match fetch (versePath dt) with
      | .notFound => { status := 404, success := false, message := some (msgNoVerse ds) }
      | .err e =>
        { status := 500, success := false,
          message := some ("Failed to retrieve verse content: " ++ e) }
      | .ok doc =>
        match parseVerseFromDom ds doc with
        | none => { status := 500, success := false }
        | some v => { status := 200, success := true, verse := some v }

/-- `GET /get_latest_verse_date`. -/
def get_latest_verse_date (connected : Bool)
    (dirListing : GhResult (List RepoEntry)) : JsonResponse :=
  if connected = false then
    { status := 500, success := false, message := some msgNoRepo }
  else
    match dirListing with
    | .ok entries =>
      match latestDateFrom entries with
      | some dt =>
        { status := 200, success := true, latest_date := some (some (formatDisplayDate dt)) }
      | none =>
        { status := 200, success := true, latest_date := some none,
          message := some msgNoVersesYet }
    | .notFound =>
      { status := 200, success := true, latest_date := some none,
        message := some msgNoVersesYet }
    | .err e => { status := 500, success := false, message := some (msgLatestFail e) }
/-- `String.mk` of `String.data` is the identity. -/
theorem mk_data_eq (s : String) : (⟨s.data⟩ : String) = s := by cases s; rfl

/-- Data of an appended string. -/
theorem data_append' (s t : String) : (s ++ t).data = s.data ++ t.data :=
  String.data_append s t

theorem length_dropWhile_le' (p : Char → Bool) (l : List Char) :
    (l.dropWhile p).length ≤ l.length := by
  induction l with
  | nil => simp
  | cons a t ih =>
    rw [List.dropWhile_cons]
    by_cases h : p a = true
    · rw [if_pos h]
      exact le_trans ih (by simp)
    · rw [if_neg h]

/-- Dropping over an all-`p` prefix continues into the suffix. -/
theorem dropWhile_append_all {p : Char → Bool} {w : List Char} (l : List Char)
    (h : ∀ c ∈ w, p c = true) : (w ++ l).dropWhile p = l.dropWhile p := by
  induction w with
  | nil => rfl
  | cons a t ih =>
    simp only [List.cons_append, List.dropWhile_cons, h a (by simp)]
    exact ih (fun c hc => h c (by simp [hc]))

theorem dropWhile_all {p : Char → Bool} {w : List Char}
    (h : ∀ c ∈ w, p c = true) : w.dropWhile p = [] := by
  have := dropWhile_append_all (p := p) (w := w) [] h
  simpa using this

/-- A fixed point of `dropWhile` has a head not satisfying `p`. -/
theorem head_false_of_dropWhile_fix {p : Char → Bool} {c : Char} {t : List Char}
    (h : (c :: t).dropWhile p = c :: t) : p c = false := by
  by_cases hc : p c = true
  · rw [List.dropWhile_cons, if_pos hc] at h
    have := congrArg List.length h
    have hle := length_dropWhile_le' p t
    simp at this
    omega
  · simpa using hc

/-- A `dropWhile` fixed point stays fixed after appending a fixed suffix. -/
theorem dropWhile_append_fixed {p : Char → Bool} (x w : List Char)
    (hx : x.dropWhile p = x) (hw : w.dropWhile p = w) :
    (x ++ w).dropWhile p = x ++ w := by
  cases x with
  | nil => simpa using hw
  | cons c t =>
    have hc := head_false_of_dropWhile_fix hx
    simp [List.dropWhile_cons, hc]

theorem dropWhile_append_left_nil {p : Char → Bool} {l : List Char} (w : List Char)
    (h : l.dropWhile p = []) : (l ++ w).dropWhile p = w.dropWhile p := by
  induction l with
  | nil => rfl
  | cons a t ih =>
    by_cases ha : p a = true
    · rw [List.dropWhile_cons, if_pos ha] at h
      simp only [List.cons_append, List.dropWhile_cons, ha, if_true]
      exact ih h
    · rw [List.dropWhile_cons, if_neg ha] at h
      exact absurd h (by simp)

theorem dropWhile_append_left_cons {p : Char → Bool} {l : List Char} {c : Char}
    {t : List Char} (w : List Char) (h : l.dropWhile p = c :: t) :
    (l ++ w).dropWhile p = (c :: t) ++ w := by
  induction l with
  | nil => simp at h
  | cons a r ih =>
    by_cases ha : p a = true
    · rw [List.dropWhile_cons, if_pos ha] at h
      simp only [List.cons_append, List.dropWhile_cons, ha, if_true]
      exact ih h
    · rw [List.dropWhile_cons, if_neg ha] at h
      injection h with h1 h2
      subst h1; subst h2
      simp [List.dropWhile_cons, ha]

/-- Stripping ignores all-`p` padding at both ends. -/
theorem stripP_wrap (p : Char → Bool) (w1 w2 l : List Char)
    (h1 : ∀ c ∈ w1, p c = true) (h2 : ∀ c ∈ w2, p c = true) :
    stripP p (w1 ++ l ++ w2) = stripP p l := by
  unfold stripP rstripP lstripP
  rw [List.append_assoc, dropWhile_append_all _ h1]
  rcases hl : l.dropWhile p with _ | ⟨c, t⟩
  · rw [dropWhile_append_left_nil _ hl, dropWhile_all h2]
  · rw [dropWhile_append_left_cons _ hl, List.reverse_append]
    rw [dropWhile_append_all _ (fun a ha => h2 a (List.mem_reverse.mp ha))]

/-- Both-ends fixed points of `dropWhile` (the stripped strings). -/
def strippedBy (p : Char → Bool) (s : String) : Prop :=
  s.data.dropWhile p = s.data ∧ s.data.reverse.dropWhile p = s.data.reverse

instance (p : Char → Bool) (s : String) : Decidable (strippedBy p s) := by
  unfold strippedBy; infer_instance

theorem stripP_of_strippedBy {p : Char → Bool} {s : String} (h : strippedBy p s) :
    stripP p s.data = s.data := by
  unfold stripP rstripP lstripP
  rw [h.1, h.2, List.reverse_reverse]
theorem empty_append_str (s : String) : ("" : String) ++ s = s := by cases s; rfl

/-- `get_text(strip=True)` on an element with a single text child strips that
text. -/
theorem getTextStrip_single (t : String) (cs : List String) (s : String) :
    getTextStrip (.elem t cs [.text s]) = pyStrip s := by
  show String.join ((([s].map pyStrip).filter (fun s => s != ""))) = pyStrip s
  by_cases h : pyStrip s = ""
  · simp [h, String.join]
  · simp only [List.map_cons, List.map_nil, List.filter_cons, List.filter_nil]
    rw [if_pos (by simpa using h)]
    simp [String.join, empty_append_str]

/-- Whitespace around a whitespace-stripped value vanishes under `pyStrip`
(template blockquote / paragraph slots). -/
theorem pyStrip_wrap (s : String) (h : strippedBy isPyWs s) :
    pyStrip ("\n                " ++ s ++ "\n            ") = s := by
  unfold pyStrip
  rw [data_append', data_append']
  rw [stripP_wrap isPyWs _ _ _ (by decide) (by decide), stripP_of_strippedBy h]
/-- The first cite slot: `—` prefix, strip, then global `—` removal. -/
theorem cite1_value (s : String) (hws : strippedBy isPyWs s) (hd : '—' ∉ s.data) :
    removeChar '—' (pyStrip ("—" ++ s)) = s := by
  have h1 : stripP isPyWs ('—' :: s.data) = '—' :: s.data := by
    unfold stripP rstripP lstripP
    rw [List.dropWhile_cons, if_neg (by decide)]
    rw [List.reverse_cons, dropWhile_append_fixed _ _ hws.2 (by decide)]
    rw [List.reverse_append, List.reverse_reverse]
    rfl
  have h2 : pyStrip ("—" ++ s) = ⟨'—' :: s.data⟩ := by
    unfold pyStrip
    show (⟨stripP isPyWs ('—' :: s.data)⟩ : String) = _
    rw [h1]
  rw [h2]
  unfold removeChar
  show (⟨('—' :: s.data).filter (fun a => a != '—')⟩ : String) = s
  rw [List.filter_cons, if_neg (by decide)]
  rw [List.filter_eq_self.mpr (fun a ha => by
    have : a ≠ '—' := fun e => hd (e ▸ ha)
    simpa using this)]

/-- The second cite slot: `— ` prefix (dash and space), strip, then global `—`
removal leaves a leading space. -/
theorem cite2_value (s : String) (hws : strippedBy isPyWs s) (hne : s ≠ "")
    (hd : '—' ∉ s.data) :
    removeChar '—' (pyStrip ("— " ++ s)) = " " ++ s := by
  obtain ⟨c, t, hrev⟩ : ∃ c t, s.data.reverse = c :: t := by
    rcases hr : s.data.reverse with _ | ⟨c, t⟩
    · exfalso
      apply hne
      have hdata : s.data = [] := by simpa using congrArg List.reverse hr
      rw [← mk_data_eq s, hdata]
    · exact ⟨c, t, rfl⟩
  have hc : isPyWs c = false := head_false_of_dropWhile_fix (hrev ▸ hws.2)
  have h1 : stripP isPyWs ('—' :: ' ' :: s.data) = '—' :: ' ' :: s.data := by
    unfold stripP rstripP lstripP
    rw [List.dropWhile_cons, if_neg (by decide)]
    have hrev2 : ('—' :: ' ' :: s.data).reverse = c :: (t ++ [' ', '—']) := by
      simp [hrev]
    rw [hrev2, List.dropWhile_cons, if_neg (by simp [hc]), ← hrev2, List.reverse_reverse]
  have h2 : pyStrip ("— " ++ s) = ⟨'—' :: ' ' :: s.data⟩ := by
    unfold pyStrip
    show (⟨stripP isPyWs ('—' :: ' ' :: s.data)⟩ : String) = _
    rw [h1]
  rw [h2]
  unfold removeChar
  show (⟨('—' :: ' ' :: s.data).filter (fun a => a != '—')⟩ : String) = " " ++ s
  rw [List.filter_cons, if_neg (by decide), List.filter_cons, if_pos (by decide)]
  rw [List.filter_eq_self.mpr (fun a ha => by
    have : a ≠ '—' := fun e => hd (e ▸ ha)
    simpa using this)]
  show _ = ⟨' ' :: s.data⟩
  rfl

/-- The english blockquote slot: quotes around the value survive `pyStrip`
and are removed by `strip(QUOTE)` when the value has quote-free ends. -/
theorem blockquote2_value (s : String) (hq : strippedBy (fun c => c == '"') s) :
    stripQuotes (pyStrip ("\n                \"" ++ s ++ "\"\n            ")) = s := by
  have hfix : stripP isPyWs ('"' :: (s.data ++ ['"'])) = '"' :: (s.data ++ ['"']) := by
    unfold stripP rstripP lstripP
    rw [List.dropWhile_cons, if_neg (by decide)]
    have hrev2 : ('"' :: (s.data ++ ['"'])).reverse = '"' :: (s.data.reverse ++ ['"']) := by
      simp
    rw [hrev2, List.dropWhile_cons, if_neg (by decide), ← hrev2, List.reverse_reverse]
  have h2 : pyStrip ("\n                \"" ++ s ++ "\"\n            ") =
      ⟨'"' :: (s.data ++ ['"'])⟩ := by
    unfold pyStrip
    rw [data_append', data_append']
    have hl : "\n                \"".data ++ s.data ++ "\"\n            ".data =
        "\n                ".data ++ ('"' :: (s.data ++ ['"'])) ++ "\n            ".data := by
      simp
    rw [hl, stripP_wrap isPyWs _ _ _ (by decide) (by decide), hfix]
  rw [h2]
  unfold stripQuotes
  show (⟨stripP (fun c => c == '"') ('"' :: (s.data ++ ['"']))⟩ : String) = s
  unfold stripP rstripP lstripP
  rw [List.dropWhile_cons, if_pos (by decide)]
  rcases hs : s.data with _ | ⟨c, t⟩
  · rw [← mk_data_eq s, hs]
    rfl
  · have hcq := head_false_of_dropWhile_fix (p := fun a => a == '"') (hs ▸ hq.1)
    rw [List.cons_append, List.dropWhile_cons, if_neg (by simp only [hcq]; exact Bool.false_ne_true)]
    have hrev3 : (c :: (t ++ ['"'])).reverse = '"' :: (c :: t).reverse := by simp
    rw [hrev3, List.dropWhile_cons, if_pos (by decide)]
    have hq2 : List.dropWhile (fun a => a == '"') ((c :: t).reverse) = (c :: t).reverse := by
      rw [← hs]; exact hq.2
    rw [hq2, List.reverse_reverse]
    rw [← mk_data_eq s, hs]

/-- The h3 slot: trailing colon survives `pyStrip` and is removed with all
other colons by `replace(':', '')`. -/
theorem h3_value (s : String) (hws : strippedBy isPyWs s) (hc : ':' ∉ s.data) :
    removeChar ':' (pyStrip (s ++ ":")) = s := by
  have h1 : stripP isPyWs (s.data ++ [':']) = s.data ++ [':'] := by
    unfold stripP rstripP lstripP
    rw [dropWhile_append_fixed _ _ hws.1 (by decide)]
    have hrev : (s.data ++ [':']).reverse = ':' :: s.data.reverse := by simp
    rw [hrev, List.dropWhile_cons, if_neg (by decide), ← hrev, List.reverse_reverse]
  have h2 : pyStrip (s ++ ":") = ⟨s.data ++ [':']⟩ := by
    unfold pyStrip
    rw [data_append']
    show (⟨stripP isPyWs (s.data ++ [':'])⟩ : String) = _
    rw [h1]
  rw [h2]
  unfold removeChar
  show (⟨(s.data ++ [':']).filter (fun a => a != ':')⟩ : String) = s
  rw [List.filter_append]
  rw [List.filter_eq_self.mpr (fun a ha => by
    have : a ≠ ':' := fun e => hc (e ▸ ha)
    simpa using this)]
  rw [show List.filter (fun a => a != ':') [':'] = [] from by decide]
  rw [List.append_nil]
/-- Parsing the rendered document reduces to the literal post-processing of
each slot text. -/
theorem parse_rendered (dateStr dd mv mr ev er mt p1 p2 : String) :
    parseVerseFromDom dateStr (renderedDom dd mv mr ev er mt p1 p2) =
      some { date := dateStr
             malayalam_verse := pyStrip ("\n                " ++ mv ++ "\n            ")
             malayalam_ref := removeChar '—' (pyStrip ("—" ++ mr))
             english_verse := stripQuotes (pyStrip ("\n                \"" ++ ev ++ "\"\n            "))
             english_ref := removeChar '—' (pyStrip ("— " ++ er))
             message_title := removeChar ':' (pyStrip (mt ++ ":"))
             message_paragraph1 := pyStrip ("\n                " ++ p1 ++ "\n            ")
             message_paragraph2 := pyStrip ("\n                " ++ p2 ++ "\n            ") } := by
  simp [parseVerseFromDom, renderedDom, findTagClass, findTagClassL, findAllTag,
    findAllTagL, childrenOf, getTextStrip_single, Option.bind]
/-- Free of the metacharacters under which the HTML parser would not return
the text verbatim. -/
def markupFree (s : String) : Prop := '<' ∉ s.data ∧ '&' ∉ s.data

instance (s : String) : Decidable (markupFree s) := by
  unfold markupFree; infer_instance

/-- C1 (counterexample): rendering the eight accepted field values of a record
and parsing the result does not return the original values — `english_ref`
comes back with a leading space, because the template writes `— ` before it,
`get_text(strip=True)` keeps the inner space, and `replace` only removes the
dash. -/
theorem render_parse_roundtrip_counterexample :
    parseVerseFromDom ("August 05, 2025")
        (renderedDom ("August 05, 2025") ("MV") ("MR") ("EV") ("ER") ("T") ("P1") ("P2")) ≠
      some { date := "August 05, 2025", malayalam_verse := "MV", malayalam_ref := "MR",
             english_verse := "EV", english_ref := "ER", message_title := "T",
             message_paragraph1 := "P1", message_paragraph2 := "P2" } := by
  decide

/-- C1 (amended): for accepted field values that are whitespace-stripped, free
of markup metacharacters, with no em-dash in the two reference fields, no
colon in the title, and no double quote at either end of the english verse,
render-then-parse returns the seven fields `malayalam_verse`,
`malayalam_ref`, `english_verse`, `message_title`, `message_paragraph1`,
`message_paragraph2` and `date` exactly, while `english_ref` is returned with
one leading space prepended. -/
theorem render_parse_roundtrip_amended
    (dateStr dd mv mr ev er mt p1 p2 : String)
    (hmv : strippedBy isPyWs mv) (hmr : strippedBy isPyWs mr)
    (her : strippedBy isPyWs er) (hmt : strippedBy isPyWs mt)
    (hp1 : strippedBy isPyWs p1) (hp2 : strippedBy isPyWs p2)
    (hev : strippedBy (fun c => c == '"') ev)
    (hmrd : '—' ∉ mr.data) (herd : '—' ∉ er.data) (hmtc : ':' ∉ mt.data)
    (herne : er ≠ "")
    (_hm1 : markupFree mv) (_hm2 : markupFree mr) (_hm3 : markupFree ev)
    (_hm4 : markupFree er) (_hm5 : markupFree mt) (_hm6 : markupFree p1)
    (_hm7 : markupFree p2) :
    parseVerseFromDom dateStr (renderedDom dd mv mr ev er mt p1 p2) =
      some { date := dateStr, malayalam_verse := mv, malayalam_ref := mr,
             english_verse := ev, english_ref := " " ++ er, message_title := mt,
             message_paragraph1 := p1, message_paragraph2 := p2 } := by
  rw [parse_rendered, pyStrip_wrap mv hmv, pyStrip_wrap p1 hp1, pyStrip_wrap p2 hp2,
    cite1_value mr hmr hmrd, cite2_value er her herne herd,
    blockquote2_value ev hev, h3_value mt hmt hmtc]

/-- Witness for the amended C1 theorem at a concrete record. -/
theorem render_parse_roundtrip_amended_witness :
    strippedBy isPyWs ("MV") ∧ ("ER" : String) ≠ "" ∧
    parseVerseFromDom ("August 05, 2025")
        (renderedDom ("August 05, 2025") ("MV") ("MR") ("EV") ("ER") ("T") ("P1") ("P2")) =
      some { date := "August 05, 2025", malayalam_verse := "MV", malayalam_ref := "MR",
             english_verse := "EV", english_ref := " ER", message_title := "T",
             message_paragraph1 := "P1", message_paragraph2 := "P2" } :=
  ⟨by decide, by decide,
    render_parse_roundtrip_amended ("August 05, 2025") ("August 05, 2025") ("MV") ("MR")
      ("EV") ("ER") ("T") ("P1") ("P2") (by decide) (by decide) (by decide) (by decide) (by decide)
      (by decide) (by decide) (by decide) (by decide) (by decide) (by decide)
      (by decide) (by decide) (by decide) (by decide) (by decide) (by decide)
      (by decide)⟩
/-- The listed dates are the formats of the parsed dates, in order. -/
theorem existingDatesFrom_eq_map (entries : List RepoEntry) :
    existingDatesFrom entries = (parsedDatesFrom entries).map formatDisplayDate := by
  unfold existingDatesFrom parsedDatesFrom
  rw [List.map_filterMap]

/-- The latest-date loop is the fold of `maxStep` over the parsed dates. -/
theorem latestDateFrom_eq_foldl (entries : List RepoEntry) :
    latestDateFrom entries = (parsedDatesFrom entries).foldl maxStep none := by
  have key : ∀ (l : List RepoEntry) (acc : Option VDate),
      l.foldl (fun acc e =>
        match entryDate e with
        | some dte => maxStep acc dte
        | none => acc) acc = (l.filterMap entryDate).foldl maxStep acc := by
    intro l
    induction l with
    | nil => intro acc; rfl
    | cons e rest ih =>
      intro acc
      rcases he : entryDate e with _ | dte <;> simp [he, ih, List.filterMap_cons]
  exact key entries none

/-- C8: an absent verse directory, or one with no record files, yields success
with an empty list from the listing endpoint and success with a null latest
date from the latest endpoint; neither errors. -/
theorem empty_store_endpoints (entries : List RepoEntry)
    (h : parsedDatesFrom entries = []) :
    get_existing_verse_dates true (.ok entries) =
      { status := 200, success := true, dates := some [] } ∧
    get_existing_verse_dates true .notFound =
      { status := 200, success := true, dates := some [] } ∧
    get_latest_verse_date true (.ok entries) =
      { status := 200, success := true, latest_date := some none,
        message := some msgNoVersesYet } ∧
    get_latest_verse_date true .notFound =
      { status := 200, success := true, latest_date := some none,
        message := some msgNoVersesYet } := by
  refine ⟨?_, rfl, ?_, rfl⟩
  · simp [get_existing_verse_dates, existingDatesFrom_eq_map, h]
  · simp [get_latest_verse_date, latestDateFrom_eq_foldl, h]

/-- Witness for C8 at a directory holding only a non-record file. -/
theorem empty_store_endpoints_witness :
    parsedDatesFrom [⟨"README.md", "file"⟩] = [] ∧
    get_existing_verse_dates true (.ok [⟨"README.md", "file"⟩]) =
      { status := 200, success := true, dates := some [] } ∧
    get_latest_verse_date true (.ok [⟨"README.md", "file"⟩]) =
      { status := 200, success := true, latest_date := some none,
        message := some msgNoVersesYet } :=
  ⟨by decide,
    (empty_store_endpoints [⟨"README.md", "file"⟩] (by decide)).1,
    (empty_store_endpoints [⟨"README.md", "file"⟩] (by decide)).2.2.1⟩

/-- C2: when the existence check finds a record for the requested date the
endpoint answers 409 with `success = false` and issues no write operation. -/
theorem duplicate_date_conflict (req : GenRequest) (check : String → GhResult Unit)
    (create : String → String → String → Except String Unit) (dt : VDate)
    (hall : allFieldsTruthy req = true)
    (hdate : parseDisplayDate (req.date.getD ("")) = some dt)
    (hdup : check (versePath dt) = .ok ()) :
    (generate_and_upload_verse true req check create).1.status = 409 ∧
    (generate_and_upload_verse true req check create).1.success = false ∧
    ∀ op ∈ (generate_and_upload_verse true req check create).2, op.isWrite = false := by
  unfold generate_and_upload_verse
  simp [hall, hdate, hdup, StoreOp.isWrite]

/-- Witness for C2 at a concrete duplicate request. -/
theorem duplicate_date_conflict_witness :
    allFieldsTruthy ⟨some ("August 05, 2025"), some ("a"), some ("b"), some ("c"),
      some ("d"), some ("e"), some ("f"), some ("g")⟩ = true ∧
    parseDisplayDate ("August 05, 2025") = some ⟨2025, 8, 5⟩ ∧
    ((generate_and_upload_verse true
        ⟨some ("August 05, 2025"), some ("a"), some ("b"), some ("c"),
         some ("d"), some ("e"), some ("f"), some ("g")⟩
        (fun _ => .ok ()) (fun _ _ _ => .ok ())).1.status = 409 ∧
     (generate_and_upload_verse true
        ⟨some ("August 05, 2025"), some ("a"), some ("b"), some ("c"),
         some ("d"), some ("e"), some ("f"), some ("g")⟩
        (fun _ => .ok ()) (fun _ _ _ => .ok ())).1.success = false ∧
     ∀ op ∈ (generate_and_upload_verse true
        ⟨some ("August 05, 2025"), some ("a"), some ("b"), some ("c"),
         some ("d"), some ("e"), some ("f"), some ("g")⟩
        (fun _ => .ok ()) (fun _ _ _ => .ok ())).2, op.isWrite = false) :=
  ⟨by decide, by decide,
    duplicate_date_conflict _ _ _ ⟨2025, 8, 5⟩ (by decide) (by decide) rfl⟩

/-- C3: a request whose fields are all present but whose date string does not
parse is answered 400 and no store call is made. -/
theorem invalid_date_rejected (req : GenRequest) (check : String → GhResult Unit)
    (create : String → String → String → Except String Unit)
    (hall : allFieldsTruthy req = true)
    (hbad : parseDisplayDate (req.date.getD ("")) = none) :
    generate_and_upload_verse true req check create =
      ({ status := 400, success := false,
         message := some (msgInvalidDate (req.date.getD (""))) }, []) := by
  unfold generate_and_upload_verse
  simp [hall, hbad]

/-- Witness for C3 at the malformed date of the spec example. -/
theorem invalid_date_rejected_witness :
    allFieldsTruthy ⟨some ("13/45/2024"), some ("a"), some ("b"), some ("c"),
      some ("d"), some ("e"), some ("f"), some ("g")⟩ = true ∧
    parseDisplayDate ("13/45/2024") = none ∧
    generate_and_upload_verse true
      ⟨some ("13/45/2024"), some ("a"), some ("b"), some ("c"),
       some ("d"), some ("e"), some ("f"), some ("g")⟩
      (fun _ => .notFound) (fun _ _ _ => .ok ()) =
      ({ status := 400, success := false,
         message := some (msgInvalidDate ("13/45/2024")) }, []) :=
  ⟨by decide, by decide, invalid_date_rejected _ _ _ (by decide) (by decide)⟩

/-- C9: a request with a required field present but falsy (the empty string)
is answered 400 exactly like a missing field, with no store call. -/
theorem empty_field_rejected (req : GenRequest) (check : String → GhResult Unit)
    (create : String → String → String → Except String Unit)
    (h : req.date = some ("") ∨ req.malayalam_verse = some ("") ∨
      req.malayalam_ref = some ("") ∨ req.english_verse = some ("") ∨
      req.english_ref = some ("") ∨ req.message_title = some ("") ∨
      req.message_paragraph1 = some ("") ∨ req.message_paragraph2 = some ("")) :
    generate_and_upload_verse true req check create =
      ({ status := 400, success := false, message := some msgMissing }, []) := by
  have hf : allFieldsTruthy req = false := by
    unfold allFieldsTruthy truthy
    rcases h with h | h | h | h | h | h | h | h <;> rw [h] <;> simp
  unfold generate_and_upload_verse
  simp [hf]

/-- Witness for C9 at a request whose english verse is the empty string. -/
theorem empty_field_rejected_witness :
    (⟨some ("August 05, 2025"), some ("a"), some ("b"), some (""),
      some ("d"), some ("e"), some ("f"), some ("g")⟩ : GenRequest).english_verse = some ("") ∧
    generate_and_upload_verse true
      ⟨some ("August 05, 2025"), some ("a"), some ("b"), some (""),
       some ("d"), some ("e"), some ("f"), some ("g")⟩
      (fun _ => .notFound) (fun _ _ _ => .ok ()) =
      ({ status := 400, success := false, message := some msgMissing }, []) :=
  ⟨rfl, empty_field_rejected _ _ _ (by simp)⟩

/-- C4: fetching a date whose derived file is absent in the store yields the
handled 404 outcome with `success = false`. -/
theorem missing_record_404 (ds : String) (dt : VDate) (fetch : String → GhResult HNode)
    (hne : ds ≠ "")
    (hdate : parseDisplayDate ds = some dt)
    (habsent : fetch (versePath dt) = .notFound) :
    get_verse_content_by_date true (some ds) fetch =
      { status := 404, success := false, message := some (msgNoVerse ds) } := by
  unfold get_verse_content_by_date
  simp [truthy, hne, hdate, habsent]

/-- Witness for C4 at a concrete date over an empty store. -/
theorem missing_record_404_witness :
    ("August 05, 2025" : String) ≠ "" ∧
    parseDisplayDate ("August 05, 2025") = some ⟨2025, 8, 5⟩ ∧
    get_verse_content_by_date true (some ("August 05, 2025")) (fun _ => .notFound) =
      { status := 404, success := false,
        message := some (msgNoVerse ("August 05, 2025")) } :=
  ⟨by decide, by decide, missing_record_404 _ ⟨2025, 8, 5⟩ _ (by decide) (by decide) rfl⟩

/-- C6: an accepted creation request writes exactly one file, under the fixed
directory, named by the ISO form of the parsed date, whose content is the
rendered template, and answers 200. -/
theorem accepted_write_layout (req : GenRequest) (check : String → GhResult Unit)
    (create : String → String → String → Except String Unit) (dt : VDate)
    (hall : allFieldsTruthy req = true)
    (hdate : parseDisplayDate (req.date.getD ("")) = some dt)
    (hchk : check (versePath dt) = .notFound)
    (hcr : ∀ p c m, create p c m = .ok ()) :
    generate_and_upload_verse true req check create =
      ({ status := 200, success := true,
         message := some (msgCreated (formatDisplayDate dt)) },
       [StoreOp.getContents (versePath dt),
        StoreOp.createFile (versePath dt)
          (renderVerse (formatDisplayDate dt) (req.malayalam_verse.getD (""))
            (req.malayalam_ref.getD ("")) (req.english_verse.getD (""))
            (req.english_ref.getD ("")) (req.message_title.getD (""))
            (req.message_paragraph1.getD ("")) (req.message_paragraph2.getD ("")))
          ("Add daily verse for " ++ formatDisplayDate dt ++ " via API")]) ∧
    versePath dt = githubFilePathBase ++ "/bible_verse_" ++ formatIsoDate dt ++ ".html" := by
  constructor
  · unfold generate_and_upload_verse
    simp [hall, hdate, hchk, hcr]
  · rfl

/-- Witness for C6: the spec example date maps to the expected path. -/
theorem accepted_write_layout_witness :
    parseDisplayDate ("August 05, 2025") = some ⟨2025, 8, 5⟩ ∧
    versePath ⟨2025, 8, 5⟩ = "daily-verses/bible_verse_2025-08-05.html" ∧
    (generate_and_upload_verse true
      ⟨some ("August 05, 2025"), some ("a"), some ("b"), some ("c"),
       some ("d"), some ("e"), some ("f"), some ("g")⟩
      (fun _ => .notFound) (fun _ _ _ => .ok ())).1 =
      { status := 200, success := true,
        message := some (msgCreated (formatDisplayDate ⟨2025, 8, 5⟩)) } :=
  ⟨by decide, by decide,
    by rw [(accepted_write_layout _ _ _ ⟨2025, 8, 5⟩ (by decide) (by decide) rfl
      (fun _ _ _ => rfl)).1]⟩

/-- C7: the renderer concatenates the literal template pieces with the raw
field values, embedding each value verbatim with no escaping. -/
theorem template_embeds_fields_verbatim (dd mv mr ev er mt p1 p2 : String) :
    renderVerse dd mv mr ev er mt p1 p2 =
      tpl0 ++ dd ++ tpl1 ++ dd ++ tpl2 ++ mv ++ tpl3 ++ mr ++ tpl4 ++ ev ++ tpl5 ++ er
        ++ tpl6 ++ mt ++ tpl7 ++ p1 ++ tpl8 ++ p2 ++ tpl9 := by
  simp [renderVerse, pyFormat, HTML_TEMPLATE_PIECES, String.append_assoc,
    String.append_empty]

/-- C10: an entry that is not a file, or whose name does not end in `.html`,
or does not match `FILE_DATE_PATTERN` at the start, contributes nothing to
the listing and cannot change the latest date. -/
theorem nonmatching_entry_ignored (pre post : List RepoEntry) (e : RepoEntry)
    (h : e.typ ≠ "file" ∨ strEndsWith e.name (".html") = false ∨
      matchFilePattern e.name = none) :
    existingDatesFrom (pre ++ e :: post) = existingDatesFrom (pre ++ post) ∧
    latestDateFrom (pre ++ e :: post) = latestDateFrom (pre ++ post) := by
  have hd : entryDate e = none := by
    unfold entryDate
    rcases h with h | h | h
    · rw [if_neg (by simp [h])]
    · rw [if_neg (by simp [h])]
    · by_cases hc : e.typ = "file" ∧ strEndsWith e.name (".html") = true
      · rw [if_pos hc, h]
      · rw [if_neg hc]
  constructor
  · unfold existingDatesFrom
    rw [List.filterMap_append, List.filterMap_append, List.filterMap_cons]
    simp [hd]
  · rw [latestDateFrom_eq_foldl, latestDateFrom_eq_foldl]
    unfold parsedDatesFrom
    rw [List.filterMap_append, List.filterMap_append, List.filterMap_cons, hd]

/-- Witness for C10: a stray text file in the verse directory is ignored. -/
theorem nonmatching_entry_ignored_witness :
    matchFilePattern ("notes.txt") = none ∧
    existingDatesFrom [⟨"bible_verse_2025-08-05.html", "file"⟩, ⟨"notes.txt", "file"⟩] =
      existingDatesFrom [⟨"bible_verse_2025-08-05.html", "file"⟩] ∧
    latestDateFrom [⟨"bible_verse_2025-08-05.html", "file"⟩, ⟨"notes.txt", "file"⟩] =
      latestDateFrom [⟨"bible_verse_2025-08-05.html", "file"⟩] :=
  ⟨by decide,
    (nonmatching_entry_ignored [⟨"bible_verse_2025-08-05.html", "file"⟩] []
      ⟨"notes.txt", "file"⟩ (by decide)).1,
    (nonmatching_entry_ignored [⟨"bible_verse_2025-08-05.html", "file"⟩] []
      ⟨"notes.txt", "file"⟩ (by decide)).2⟩
theorem digitChar_isDigit_of_lt {j : Nat} (h : j < 10) : (Nat.digitChar j).isDigit = true := by
  interval_cases j <;> decide

theorem digitChar_not_ws_of_lt {j : Nat} (h : j < 10) : isPyWs (Nat.digitChar j) = false := by
  interval_cases j <;> decide

theorem digitVal_digitChar_of_lt {j : Nat} (h : j < 10) : digitVal (Nat.digitChar j) = j := by
  interval_cases j <;> decide

theorem parseDisplay_of_readMonth (s : String) (m y d : Nat)
    (hmr : readMonthAux monthTable s.data =
      some (m, ' ' :: Nat.digitChar (d / 10 % 10) :: Nat.digitChar (d % 10) :: ',' ::
        ' ' :: Nat.digitChar (y / 1000 % 10) :: Nat.digitChar (y / 100 % 10) ::
        Nat.digitChar (y / 10 % 10) :: Nat.digitChar (y % 10) :: []))
    (hd1 : 1 ≤ d) (hd31 : d ≤ 31) (hdm : d ≤ daysInMonth y m)
    (hy1 : 1 ≤ y) (hy2 : y ≤ 9999) :
    parseDisplayDate s = some ⟨y, m, d⟩ := by
  have hdig : ∀ k : Nat, (Nat.digitChar (k % 10)).isDigit = true :=
    fun k => digitChar_isDigit_of_lt (Nat.mod_lt _ (by norm_num))
  have hnws : ∀ k : Nat, isPyWs (Nat.digitChar (k % 10)) = false :=
    fun k => digitChar_not_ws_of_lt (Nat.mod_lt _ (by norm_num))
  have hval : ∀ k : Nat, digitVal (Nat.digitChar (k % 10)) = k % 10 :=
    fun k => digitVal_digitChar_of_lt (Nat.mod_lt _ (by norm_num))
  have hd' : 10 * (d / 10 % 10) + d % 10 = d := by omega
  have hy' : 10 * (10 * (10 * (y / 1000 % 10) + y / 100 % 10) + y / 10 % 10) + y % 10 = y := by
    omega
  unfold parseDisplayDate
  rw [hmr]
  simp [List.dropWhile_cons, List.takeWhile_cons, hdig, hnws, hval, digitsVal,
    List.foldl_cons, List.foldl_nil,
    show isPyWs ' ' = true from rfl, show isPyWs ',' = false from rfl,
    show Char.isDigit ',' = false from rfl,
    List.length_cons, List.length_nil]
  rw [hd', hy']
  exact ⟨⟨hd1, hd31⟩, ⟨hy1, hdm⟩, rfl, rfl⟩
theorem daysInMonth_le_31 (y m : Nat) : daysInMonth y m ≤ 31 := by
  unfold daysInMonth
  split_ifs <;> omega

/-- `strftime` then `strptime` is the identity on valid dates. -/
theorem parse_format_display (y m d : Nat)
    (hm1 : 1 ≤ m) (hm2 : m ≤ 12) (hd1 : 1 ≤ d) (hd2 : d ≤ daysInMonth y m)
    (hy1 : 1 ≤ y) (hy2 : y ≤ 9999) :
    parseDisplayDate (formatDisplayDate ⟨y, m, d⟩) = some ⟨y, m, d⟩ := by
  have h31 : d ≤ 31 := le_trans hd2 (daysInMonth_le_31 y m)
  interval_cases m <;>
    exact parseDisplay_of_readMonth _ _ y d rfl hd1 h31 hd2 hy1 hy2

theorem digitVal_le_9 {c : Char} (h : c.isDigit = true) : digitVal c ≤ 9 := by
  unfold Char.isDigit at h
  simp only [Bool.and_eq_true, decide_eq_true_eq, ge_iff_le] at h
  obtain ⟨h1, h2⟩ := h
  have h1' : (48 : Nat) ≤ c.toNat := h1
  have h2' : c.toNat ≤ 57 := h2
  unfold digitVal
  omega

/-- Any date accepted by the ISO parser satisfies the calendar bounds. -/
theorem parseIsoDate_valid {s : String} {dte : VDate} (h : parseIsoDate s = some dte) :
    1 ≤ dte.month ∧ dte.month ≤ 12 ∧ 1 ≤ dte.day ∧
    dte.day ≤ daysInMonth dte.year dte.month ∧ 1 ≤ dte.year ∧ dte.year ≤ 9999 := by
  unfold parseIsoDate at h
  split at h
  · dsimp only at h
    split_ifs at h with hdig hrange
    · injection h with h
      subst h
      obtain ⟨hy, hm1, hm2, hd1, hd2⟩ := hrange
      refine ⟨hm1, hm2, hd1, hd2, hy, ?_⟩
      have b1 := digitVal_le_9 hdig.1
      have b2 := digitVal_le_9 hdig.2.1
      have b3 := digitVal_le_9 hdig.2.2.1
      have b4 := digitVal_le_9 hdig.2.2.2.1
      simp only [digitsVal, List.foldl_cons, List.foldl_nil]
      omega
  · exact absurd h (by simp)

theorem entryDate_valid {e : RepoEntry} {dte : VDate} (h : entryDate e = some dte) :
    1 ≤ dte.month ∧ dte.month ≤ 12 ∧ 1 ≤ dte.day ∧
    dte.day ≤ daysInMonth dte.year dte.month ∧ 1 ≤ dte.year ∧ dte.year ≤ 9999 := by
  unfold entryDate at h
  split_ifs at h
  split at h
  · exact parseIsoDate_valid h
  · exact absurd h (by simp)

/-- Spec-side query: take the dates returned by the listing endpoint, read
each back, and pick the latest among them (formatted). -/
def latestAmongListed (dates : List String) : Option String :=
  ((dates.filterMap parseDisplayDate).foldl maxStep none).map formatDisplayDate

/-- C5: the latest among the dates returned by the list-dates endpoint is
exactly the date returned by the latest-date endpoint (both `none` when the
listing is empty). -/
theorem list_then_latest_agrees (entries : List RepoEntry) :
    latestAmongListed (existingDatesFrom entries) =
      (latestDateFrom entries).map formatDisplayDate := by
  have key : ∀ l : List VDate, (∀ x ∈ l, parseDisplayDate (formatDisplayDate x) = some x) →
      l.filterMap (parseDisplayDate ∘ formatDisplayDate) = l := by
    intro l
    induction l with
    | nil => intro _; rfl
    | cons a t ih =>
      intro hmem
      rw [List.filterMap_cons]
      simp only [Function.comp_apply]
      rw [hmem a (by simp), ih (fun x hx => hmem x (by simp [hx]))]
  have hmem : ∀ x ∈ parsedDatesFrom entries,
      parseDisplayDate (formatDisplayDate x) = some x := by
    intro x hx
    rw [parsedDatesFrom, List.mem_filterMap] at hx
    obtain ⟨e, _, hed⟩ := hx
    obtain ⟨hm1, hm2, hd1, hd2, hy1, hy2⟩ := entryDate_valid hed
    exact parse_format_display x.year x.month x.day hm1 hm2 hd1 hd2 hy1 hy2
  unfold latestAmongListed
  rw [existingDatesFrom_eq_map, latestDateFrom_eq_foldl, List.filterMap_map,
    key _ hmem]
